import Mathlib

/-!
Verification development for the appstore keyword-analytics system
(`gold/commands/import_report.py`, `gold/commands/batch.py`,
`gold/commands/process_batch.py`, `gold/commands/batch_report.py`,
`gold/db/database.py`).

The Python code is shallowly embedded: the SQLite tables become Lean lists of
structure values, each command-level function becomes a pure Lean function on
those states, and the external `appstore analyze` subprocess is abstracted as
an oracle value (`ToolResult`) consumed by the processor.

Transaction modelling: `database.py`'s `transaction()` context manager opens a
fresh connection on every call and commits (or rolls back) that connection's
writes on exit.  Consequently a nested call such as
`deactivate_old_reports(...)` inside `import_report`'s own
`with transaction() as conn:` block commits independently of the outer
transaction.  The embedding reflects this: every function returns the state as
persisted after all its commits, and an injected exception makes a function
return the state holding exactly the writes that had already been committed at
the point the exception was raised.
-/

namespace AppstoreGold

/-! ## Spreadsheet cells (openpyxl values) -/

/-- A non-empty spreadsheet cell value: openpyxl yields strings or numbers
(floats do not occur in the fields the importer reads). -/
inductive CellVal where
  | str (s : String)
  | int (n : Int)
deriving Repr, DecidableEq

/-- One worksheet row, as `values_only=True` yields it: each cell is a value
or `None`. -/
abbrev Row := List (Option CellVal)

/-- A worksheet: the list of its rows, row 1 first. -/
abbrev Sheet := List Row

/-- Python truthiness of a cell value: `None`, `""` and `0` are falsy. -/
def cell_truthy : Option CellVal → Bool
  | none => false
  | some (.str s) => !(s == "")
  | some (.int n) => !(n == 0)

/-- Python `str(...)` of a cell value. -/
def cell_str : CellVal → String
  | .str s => s
  | .int n => toString n

/-- Python `int(...)` of a cell value; `none` models the `ValueError` /
`TypeError` raised on a non-numeric string. -/
def cell_int : CellVal → Option Int
  | .int n => some n
  | .str s => s.toInt?

/-- Read cell `i` of a row; cells beyond the row's width read as `None`. -/
def cell_at (row : Row) (i : Nat) : Option CellVal :=
  row.getD i none

/-! ## Scoring functions (`import_report.py` lines 21-53) -/

/-- Score based on Rank in Genre position (`score_rank_in_genre`). -/
def score_rank_in_genre (rank : Int) : Int :=
  if 1 ≤ rank ∧ rank ≤ 10 then 3
  else if 11 ≤ rank ∧ rank ≤ 25 then 2
  else if 26 ≤ rank ∧ rank ≤ 50 then 1
  else 0

/-- Score based on Search Popularity in Genre (`score_popularity_in_genre`). -/
def score_popularity_in_genre (popularity : Int) : Int :=
  if 76 ≤ popularity ∧ popularity ≤ 100 then 3
  else if 61 ≤ popularity ∧ popularity ≤ 75 then 2
  else if 50 ≤ popularity ∧ popularity ≤ 60 then 1
  else 0

/-- Score based on overall Search Popularity (`score_overall_popularity`). -/
def score_overall_popularity (popularity : Int) : Int :=
  if 86 ≤ popularity ∧ popularity ≤ 100 then 5
  else if 71 ≤ popularity ∧ popularity ≤ 85 then 4
  else if 61 ≤ popularity ∧ popularity ≤ 70 then 3
  else if 50 ≤ popularity ∧ popularity ≤ 60 then 2
  else 0

/-! ## Header row and column resolution (`import_report.py` lines 185-206) -/

/-- The header row, as `import_report` finds it: only row 7 is inspected
(`iter_rows(min_row=7, max_row=7)`), and it must be non-empty with first cell
equal to `"Month"`; otherwise the import raises
`Could not find valid header row at row 7`. -/
def find_headers (sheet : Sheet) : Option Row :=
  match sheet.get? 6 with
  | none => none
  | some row => if row.head? = some (some (.str "Month")) then some row else none

/-- Modelled from the spec: `import_report.py` only ever reads row 7, but the
spec sentence "Locate the header row by content match (not fixed offset)"
describes a search over all rows for the first row whose first cell is
`"Month"`.  This definition follows the spec's words, for comparison with
`find_headers` which follows the code. -/
def find_headers_spec (sheet : Sheet) : Option Row :=
  sheet.find? (fun row => decide (row.head? = some (some (.str "Month"))))

/-- The eight required column names, in the order `import_report` resolves
them. -/
def required_columns : List String :=
  ["Month", "Country or Region", "Genre", "Search Term", "Rank in Genre",
   "Search Popularity in Genre (1-100)", "Search Popularity (1-100)",
   "Search Popularity (1-5)"]

/-- Python `headers.index(name)`: the first position whose cell equals the
name; `none` models the `ValueError` raised when the name is absent. -/
def column_index (headers : Row) (name : String) : Option Nat :=
  headers.findIdx? (fun c => c = some (.str name))

/-- Resolved column positions. -/
structure Cols where
  month : Nat
  country : Nat
  genre : Nat
  term : Nat
  rank : Nat
  pop_genre : Nat
  pop_overall : Nat
  pop_scale : Nat
deriving Repr, DecidableEq

/-- Resolve all required column names to positions (`import_report` lines
196-206); `none` models the `Could not find required column` error raised
when any `headers.index(...)` call fails. -/
def resolve_columns (headers : Row) : Option Cols :=
  match column_index headers "Month",
        column_index headers "Country or Region",
        column_index headers "Genre",
        column_index headers "Search Term",
        column_index headers "Rank in Genre",
        column_index headers "Search Popularity in Genre (1-100)",
        column_index headers "Search Popularity (1-100)",
        column_index headers "Search Popularity (1-5)" with
  | some m, some c, some g, some t, some r, some pg, some po, some ps =>
      some ⟨m, c, g, t, r, pg, po, ps⟩
  | _, _, _, _, _, _, _, _ => none

/-! ## Data-row parsing and keyword collection (`import_report.py` 216-260) -/

/-- One keyword as collected from a data row (the dict appended to `keywords`
at lines 248-260). -/
structure ParsedKeyword where
  country : String
  genre : String
  search_term : String
  rank_in_genre : Int
  popularity_genre : Int
  popularity_overall : Int
  popularity_scale : Int
  score_rank : Int
  score_genre : Int
  score_overall : Int
  total_score : Int
deriving Repr, DecidableEq

/-- Python `int(row[idx]) if row[idx] else dflt` wrapped in the shared
`try`: a falsy cell yields the default, a numeric cell its value, a
non-numeric cell `none` (the row is then skipped). -/
def parse_numeric (c : Option CellVal) (dflt : Int) : Option Int :=
  if !(cell_truthy c) then some dflt
  else (c.getD (.int 0)) |> cell_int

/-- Process one data row (loop body, `import_report` lines 216-260): skip
rows with an empty search term, rows whose country does not match a
non-empty filter, and rows where any of the four numeric parses raises.
The stored `country`/`genre` values are the TEXT-affinity form of the raw
cells, as SQLite persists them. -/
def parse_data_row (cols : Cols) (country_filter : String) (row : Row) :
    Option ParsedKeyword :=
  let termCell := cell_at row cols.term
  if !(cell_truthy termCell) then none
  else
    let countryCell := cell_at row cols.country
    if !(country_filter == "") && !(countryCell == some (.str country_filter)) then none
    else
      match parse_numeric (cell_at row cols.rank) 999,
            parse_numeric (cell_at row cols.pop_genre) 0,
            parse_numeric (cell_at row cols.pop_overall) 0,
            parse_numeric (cell_at row cols.pop_scale) 0 with
      | some rank, some pop_genre, some pop_overall, some pop_scale =>
          some { country := ((countryCell.map cell_str).getD "")
               , genre := if cell_truthy (cell_at row cols.genre)
                          then (((cell_at row cols.genre).map cell_str).getD "")
                          else ""
               , search_term := ((termCell.map cell_str).getD "")
               , rank_in_genre := rank
               , popularity_genre := pop_genre
               , popularity_overall := pop_overall
               , popularity_scale := pop_scale
               , score_rank := score_rank_in_genre rank
               , score_genre := score_popularity_in_genre pop_genre
               , score_overall := score_overall_popularity pop_overall
               , total_score := score_rank_in_genre rank
                   + score_popularity_in_genre pop_genre
                   + score_overall_popularity pop_overall }
      | _, _, _, _ => none

/-- All keywords collected from the data rows (`iter_rows(min_row=8)`). -/
def collect_keywords (sheet : Sheet) (cols : Cols) (country_filter : String) :
    List ParsedKeyword :=
  (sheet.drop 7).filterMap (parse_data_row cols country_filter)

/-! ## Report/keyword tables and the importer (`import_report.py`) -/

/-- One row of `apple_reports`. -/
structure Report where
  id : Nat
  report_id : String
  generated_at : String
  data_month : String
  user_locale : String
  month_locale_key : String
  source_filename : String
  total_keywords : Nat
  is_active : Bool
deriving Repr, DecidableEq

/-- One row of `apple_keywords`. -/
structure KeywordRow where
  id : Nat
  report_id : Nat
  kw : ParsedKeyword
deriving Repr, DecidableEq

/-- The importer-side database state: the `apple_reports` and
`apple_keywords` tables plus the autoincrement counters. -/
structure ImportDB where
  reports : List Report
  keywords : List KeywordRow
  next_report_id : Nat
  next_keyword_id : Nat
deriving Repr, DecidableEq

/-- `check_existing_report`: id of a report with the same external report id
and generation timestamp, if any. -/
def check_existing_report (db : ImportDB) (report_id generated_at : String) :
    Option Nat :=
  (db.reports.find? (fun r => r.report_id == report_id && r.generated_at == generated_at)).map
    (fun r => r.id)

/-- `deactivate_old_reports` (called with no `except_id`): clears `is_active`
on every report sharing the `month_locale_key`.  In the code this function
opens its own `transaction()` (a fresh connection), so its update commits
immediately and independently of any enclosing transaction. -/
def deactivate_old_reports (db : ImportDB) (month_locale_key : String) : ImportDB :=
  { db with reports := db.reports.map (fun r =>
      if r.month_locale_key == month_locale_key then { r with is_active := false } else r) }

/-- `import_report` from the point where the Excel metadata has been parsed
(line 168 on).  The preamble fields arrive pre-parsed; `insert_raises`
injects an exception inside the outer `with transaction()` block during the
report/keyword inserts.  The returned state is the state as persisted: on the
injected exception the outer connection rolls back its own inserts, but the
deactivation performed by `deactivate_old_reports` was already committed on
that function's private connection, so it remains.  The second component is
the returned report id, or the propagated error. -/
def import_report (db : ImportDB)
    (report_id generated_at data_month user_locale source_filename : String)
    (sheet : Sheet) (country_filter : String) (insert_raises : Bool) :
    ImportDB × Except String Nat :=
  let month_locale_key := data_month ++ "_" ++ user_locale
  match check_existing_report db report_id generated_at with
  | some existing_id => (db, .ok existing_id)
  | none =>
    match find_headers sheet with
    | none => (db, .error "Could not find valid header row at row 7")
    | some headers =>
      match resolve_columns headers with
      | none => (db, .error "Could not find required column")
      | some cols =>
        let kws := collect_keywords sheet cols country_filter
        let db1 := deactivate_old_reports db month_locale_key
        if insert_raises then (db1, .error "insert failed")
        else
          let rid := db1.next_report_id
          let rep : Report :=
            { id := rid, report_id := report_id, generated_at := generated_at
            , data_month := data_month, user_locale := user_locale
            , month_locale_key := month_locale_key
            , source_filename := source_filename
            , total_keywords := kws.length, is_active := true }
          let rows := kws.enum.map (fun p =>
            ({ id := db1.next_keyword_id + p.1, report_id := rid, kw := p.2 } : KeywordRow))
          ({ reports := db1.reports ++ [rep]
           , keywords := db1.keywords ++ rows
           , next_report_id := rid + 1
           , next_keyword_id := db1.next_keyword_id + kws.length }, .ok rid)

/-! ## Batch and batch-item tables (`keyword_batches`, `batch_keywords`) -/

/-- Status of a batch item (`batch_keywords.status`). -/
inductive ItemStatus where
  | pending
  | in_progress
  | completed
  | failed
deriving Repr, DecidableEq

/-- Status of a batch (`keyword_batches.status`). -/
inductive BatchStatus where
  | pending
  | in_progress
  | completed
  | failed
deriving Repr, DecidableEq

/-- One row of `batch_keywords`. -/
structure BatchKeyword where
  id : Nat
  batch_id : Nat
  keyword_id : Option Nat
  search_term : String
  country : String
  genre : String
  status : ItemStatus
  analysis_search_id : Option String
  error_message : Option String
  processed_at : Option Nat
deriving Repr, DecidableEq

/-- One row of `keyword_batches`.  Timestamps are abstract clock readings. -/
structure Batch where
  id : Nat
  report_id : Nat
  status : BatchStatus
  total_keywords : Nat
  completed_keywords : Nat
  failed_keywords : Nat
  notes : Option String
  started_at : Option Nat
  completed_at : Option Nat
  duration_seconds : Option Int
deriving Repr, DecidableEq

/-- The processor-side database state: one batch together with its
`batch_keywords` rows (the table restricted to `batch_id = batch.id`,
which is the only slice `process_batch` reads or writes), kept in `id`
(creation) order, mirroring `ORDER BY id`. -/
structure BatchDB where
  batch : Batch
  items : List BatchKeyword
deriving Repr, DecidableEq

/-! ## Batch builder (`batch.py` `create_batch_from_json`) -/

/-- One entry of the selection JSON: `month`/`country` are read with `.get`
(absent modelled as `none`), `search_term`/`genre` with indexing. -/
structure Descriptor where
  month : Option String
  country : Option String
  search_term : String
  genre : String
deriving Repr, DecidableEq

/-- Python truthiness of an optional string (`if not month or not country`). -/
def opt_truthy : Option String → Bool
  | none => false
  | some s => !(s == "")

/-- The report-resolution query (`batch.py` lines 58-65): the first active
report for the month that has at least one keyword row for the country
(the SQL joins `apple_reports` to `apple_keywords`). -/
def resolve_report (db : ImportDB) (month country : String) : Option Report :=
  db.reports.find? (fun r =>
    r.data_month == month && r.is_active &&
    db.keywords.any (fun k => k.report_id == r.id && k.kw.country == country))

/-- The keyword-lookup query (`batch.py` lines 98-104): the first
`apple_keywords` row matching `(report_id, country, search_term, genre)`,
where `country` is the country taken from the FIRST descriptor, not from
`d` itself. -/
def match_descriptor (db : ImportDB) (rid : Nat) (country : String) (d : Descriptor) :
    Option Nat :=
  (db.keywords.find? (fun k =>
    k.report_id == rid && k.kw.country == country &&
    k.kw.search_term == d.search_term && k.kw.genre == d.genre)).map (fun k => k.id)

/-- `create_batch_from_json`, modelled from loading the JSON onward.  The
month and country come from the first descriptor only; every descriptor is
then matched with `match_descriptor` against that single report and country.
On success, the result is the committed batch state (the batch row carries
the corrected `total_keywords`, i.e. the matched count, since the in-
transaction `UPDATE` runs before commit) together with the list of unmatched
descriptors (warned about and excluded). -/
def create_batch_from_json (db : ImportDB) (descs : List Descriptor)
    (notes : Option String) (batch_id : Nat) : Except String (BatchDB × List Descriptor) :=
  match descs with
  | [] => .error "No keywords found in JSON file"
  | first :: _ =>
    if !(opt_truthy first.month && opt_truthy first.country) then
      .error "Keywords must have month and country fields"
    else
      let month := first.month.getD ""
      let country := first.country.getD ""
      match resolve_report db month country with
      | none => .error "No active report found"
      | some rep =>
        let matched := descs.filterMap (fun d =>
          (match_descriptor db rep.id country d).map (fun kid => (kid, d)))
        let unmatched := descs.filter (fun d => (match_descriptor db rep.id country d).isNone)
        if matched.isEmpty then .error "None of the keywords were found in the database"
        else
          let items := matched.enum.map (fun p =>
            ({ id := p.1, batch_id := batch_id, keyword_id := some p.2.1
             , search_term := p.2.2.search_term, country := country, genre := p.2.2.genre
             , status := .pending, analysis_search_id := none, error_message := none
             , processed_at := none } : BatchKeyword))
          let batch : Batch :=
            { id := batch_id, report_id := rep.id, status := .pending
            , total_keywords := items.length, completed_keywords := 0, failed_keywords := 0
            , notes := notes, started_at := none, completed_at := none
            , duration_seconds := none }
          .ok ({ batch := batch, items := items }, unmatched)

/-! ## Batch processor (`process_batch.py`) -/

/-- The outcome of one `appstore analyze` subprocess invocation, as the
processor observes it: a timeout, an unexpected exception, or termination
with an exit code, captured stderr, and the answer the correlation query
`find_latest_search_id_for_keyword` subsequently returns (the most recent
`searches` row for the term newer than the before-timestamp, an external
table abstracted as part of this oracle). -/
inductive ToolResult where
  | timeout
  | excErr (msg : String)
  | exited (returncode : Int) (stderr : String) (found_search_id : Option String)
deriving Repr, DecidableEq

/-- Whether the processor counts the invocation as a success:
`result.returncode == 0` (both the with-link and the no-link correlation
outcomes are successes). -/
def tool_success : ToolResult → Bool
  | .exited rc _ _ => rc == 0
  | _ => false

/-- `update_batch_keyword_status`: sets status, `processed_at` and
`error_message`; `analysis_search_id` is written only when a `search_id`
is passed (the no-`search_id` SQL leaves that column untouched). -/
def update_batch_keyword_status (items : List BatchKeyword) (bkid : Nat)
    (status : ItemStatus) (search_id : Option String) (error_message : Option String)
    (now : Nat) : List BatchKeyword :=
  items.map (fun it =>
    if it.id == bkid then
      match search_id with
      | some sid =>
          { it with
              status := status,
              analysis_search_id := some sid,
              processed_at := some now,
              error_message := error_message }
      | none =>
          { it with
              status := status,
              processed_at := some now,
              error_message := error_message }
    else it)

/-- `COUNT(CASE WHEN status = 'completed' THEN 1 END)` over the batch's
items. -/
def count_completed (items : List BatchKeyword) : Nat :=
  (items.filter (fun it => it.status == .completed)).length

/-- `COUNT(CASE WHEN status = 'failed' THEN 1 END)` over the batch's
items. -/
def count_failed (items : List BatchKeyword) : Nat :=
  (items.filter (fun it => it.status == .failed)).length

/-- `update_batch_counters`: recompute `completed_keywords` and
`failed_keywords` as aggregate counts over the item table and store them,
regardless of the previously stored values. -/
def update_batch_counters (s : BatchDB) : BatchDB :=
  { s with batch := { s.batch with
      completed_keywords := count_completed s.items
    , failed_keywords := count_failed s.items } }

/-- Classify one tool outcome exactly as the loop body does (lines 189-236):
the updated items and whether `succeeded` was incremented. -/
def mark_item_result (items : List BatchKeyword) (bkid : Nat) (r : ToolResult)
    (now : Nat) : List BatchKeyword × Bool :=
  match r with
  | .timeout =>
      (update_batch_keyword_status items bkid .failed none
        (some "Timeout after 60 seconds") now, false)
  | .excErr msg =>
      (update_batch_keyword_status items bkid .failed none (some msg) now, false)
  | .exited rc stderr sid =>
      if rc == 0 then
        match sid with
        | some v =>
            (update_batch_keyword_status items bkid .completed (some v) none now, true)
        | none =>
            (update_batch_keyword_status items bkid .completed none
              (some "No apps found in App Store for this keyword") now, true)
      else
        (update_batch_keyword_status items bkid .failed none
          (some (if stderr == "" then "Unknown error" else stderr.take 200)) now, false)

/-- One loop iteration (lines 174-239): the three committed states (item
marked `in_progress`; item given its terminal status; counters recomputed),
the state after the iteration, and the success flag. -/
def step_states (s : BatchDB) (bkid : Nat) (r : ToolResult) (now : Nat) :
    List BatchDB × BatchDB × Bool :=
  let s1 : BatchDB :=
    { s with items := update_batch_keyword_status s.items bkid .in_progress none none now }
  let m := mark_item_result s1.items bkid r now
  let s2 : BatchDB := { s1 with items := m.1 }
  let s3 := update_batch_counters s2
  ([s1, s2, s3], s3, m.2)

/-- The processing loop over the pending snapshot, paired with this run's
tool outcomes; returns the final state and the `(succeeded, failed)`
accumulators. -/
def run_items : BatchDB → List (Nat × ToolResult) → Nat → BatchDB × Nat × Nat
  | s, [], _ => (s, 0, 0)
  | s, (i, r) :: rest, now =>
    let st := step_states s i r now
    let out := run_items st.2.1 rest (now + 1)
    (out.1, (if st.2.2 then out.2.1 + 1 else out.2.1),
            (if st.2.2 then out.2.2 else out.2.2 + 1))

/-- Every state committed during the loop, in order. -/
def run_items_trace : BatchDB → List (Nat × ToolResult) → Nat → List BatchDB
  | _, [], _ => []
  | s, (i, r) :: rest, now =>
    let st := step_states s i r now
    st.1 ++ run_items_trace st.2.1 rest (now + 1)

/-- The pending snapshot (`SELECT * FROM batch_keywords WHERE batch_id = ?
AND status = 'pending' ORDER BY id`): the ids of pending items, in creation
order. -/
def pending_ids (items : List BatchKeyword) : List Nat :=
  (items.filter (fun it => it.status == .pending)).map (fun it => it.id)

/-- The batch-started commit (lines 162-168): status `in_progress`, start
time stamped. -/
def batch_started (s : BatchDB) (t0 : Nat) : BatchDB :=
  { s with batch := { s.batch with status := .in_progress, started_at := some t0 } }

/-- The final-status commit (lines 245-255): `'completed' if failed == 0
else ('failed' if succeeded == 0 else 'completed')`, completion time and
duration (completion − start, integer seconds). -/
def batch_finalized (s : BatchDB) (succeeded failed : Nat) (t0 t1 : Nat) : BatchDB :=
  { s with
      batch := { s.batch with
                   status := if failed == 0 then BatchStatus.completed
                             else if succeeded == 0 then BatchStatus.failed
                             else BatchStatus.completed,
                   completed_at := some t1,
                   duration_seconds := some ((t1 : Int) - (t0 : Int)) } }

/-- `process_batch`: load the pending snapshot; if empty return `(0, 0)`
without touching anything; otherwise stamp the batch `in_progress`/started,
process every pending item against its tool outcome, and commit the final
status (`failed` only when no item succeeded), completion time and duration.
Returns the final state and `(succeeded, failed)`. -/
def process_batch (s : BatchDB) (results : List ToolResult) (t0 t1 : Nat) :
    BatchDB × Nat × Nat :=
  let pend := pending_ids s.items
  if pend.isEmpty then (s, 0, 0)
  else
    let out := run_items (batch_started s t0) (pend.zip results) t0
    (batch_finalized out.1 out.2.1 out.2.2 t0 t1, out.2.1, out.2.2)

/-- Every state committed during one `process_batch` invocation, in order:
the batch-started commit, the per-item commits, and the final-status
commit. -/
def process_batch_trace (s : BatchDB) (results : List ToolResult) (t0 t1 : Nat) :
    List BatchDB :=
  let pend := pending_ids s.items
  if pend.isEmpty then []
  else
    batch_started s t0 ::
      (run_items_trace (batch_started s t0) (pend.zip results) t0
        ++ [(process_batch s results t0 t1).1])

/-! ## Result reporter (`batch_report.py` `load_batch_results`) -/

/-- A successful-results entry, abstracted to the keyword input row and the
linked search id (the joined `apps`/`search_summaries` data is external and
read-only). -/
abbrev ReportSuccess := KeywordRow × String

/-- A failed/unprocessed entry: the item's search term, its keyword input
row, and its error text. -/
abbrev ReportFailure := String × KeywordRow × Option String

/-- `load_batch_results`' classification loop (lines 70-164): for each item
in id order, resolve its `apple_keywords` row through `lookup` (items whose
row is missing are skipped entirely); an item goes to the successful list
iff its status is `completed` AND its `analysis_search_id` is truthy
(non-null and non-empty), and otherwise to the failed/unprocessed list with
its error text. -/
def load_batch_results (items : List BatchKeyword) (lookup : Nat → Option KeywordRow) :
    List ReportSuccess × List ReportFailure :=
  match items with
  | [] => ([], [])
  | bk :: rest =>
    let out := load_batch_results rest lookup
    match bk.keyword_id.bind lookup with
    | none => out
    | some kd =>
      if bk.status == ItemStatus.completed && opt_truthy bk.analysis_search_id then
        ((kd, bk.analysis_search_id.getD "") :: out.1, out.2)
      else
        (out.1, (bk.search_term, kd, bk.error_message) :: out.2)

/-- An item the reporter places in the successful list: its keyword row
resolves, its status is `completed`, and its result link is truthy. -/
def report_success_cond (lookup : Nat → Option KeywordRow) (bk : BatchKeyword) : Bool :=
  (bk.keyword_id.bind lookup).isSome &&
  (bk.status == ItemStatus.completed && opt_truthy bk.analysis_search_id)

/-- An item the reporter places in the failed/unprocessed list: its keyword
row resolves but it is not `completed`-with-truthy-link. -/
def report_failure_cond (lookup : Nat → Option KeywordRow) (bk : BatchKeyword) : Bool :=
  (bk.keyword_id.bind lookup).isSome &&
  !(bk.status == ItemStatus.completed && opt_truthy bk.analysis_search_id)

/-! ## Concrete sample states (inputs for witnesses and counterexamples) -/

/-- The header row of a well-formed export: the eight required column names
in their usual order. -/
def header_row : Row := required_columns.map (fun n => some (.str n))

/-- A previously imported, active report for September 2025 / `en_US`. -/
def sample_report : Report :=
  { id := 1, report_id := "93070_144880", generated_at := "2025-10-13T17:50:00"
  , data_month := "2025-09", user_locale := "en_US"
  , month_locale_key := "2025-09_en_US", source_filename := "prev.xlsx"
  , total_keywords := 0, is_active := true }

/-- A database holding just `sample_report`. -/
def sample_import_db : ImportDB :=
  { reports := [sample_report], keywords := [], next_report_id := 2, next_keyword_id := 1 }

/-- A sheet whose rows 1-6 are preamble filler and whose row 7 is the header
row, with no data rows. -/
def sample_sheet_empty : Sheet := [[], [], [], [], [], [], header_row]

/-- A sheet with one United States data row at row 8:
rank 5, popularity-in-genre 80, overall popularity 90, scale 4. -/
def sample_sheet_one : Sheet :=
  [[], [], [], [], [], [], header_row,
   [some (.str "2025-09"), some (.str "United States"), some (.str "Games"),
    some (.str "chess"), some (.int 5), some (.int 80), some (.int 90), some (.int 4)]]

/-- A sheet whose content-matching header row sits at row 8, while row 7
holds something else. -/
def sample_sheet_shifted : Sheet :=
  [[], [], [], [], [], [], [some (.str "not a header")], header_row]

/-- The keyword `sample_sheet_one`'s data row parses to. -/
def sample_kw : ParsedKeyword :=
  { country := "United States", genre := "Games", search_term := "chess"
  , rank_in_genre := 5, popularity_genre := 80, popularity_overall := 90
  , popularity_scale := 4, score_rank := 3, score_genre := 3, score_overall := 5
  , total_score := 11 }

/-- `sample_kw` stored as `apple_keywords` row 1 of report 1. -/
def sample_kw_row : KeywordRow := { id := 1, report_id := 1, kw := sample_kw }

/-- A database with `sample_report` and its one keyword row. -/
def sample_db_with_kw : ImportDB :=
  { reports := [sample_report], keywords := [sample_kw_row]
  , next_report_id := 2, next_keyword_id := 2 }

/-- A selection descriptor matching `sample_kw` exactly. -/
def sample_desc_us : Descriptor :=
  { month := some "2025-09", country := some "United States"
  , search_term := "chess", genre := "Games" }

/-- A selection descriptor with the same term and genre but a different
country from the first descriptor's. -/
def sample_desc_uk : Descriptor :=
  { month := some "2025-09", country := some "United Kingdom"
  , search_term := "chess", genre := "Games" }

/-- A batch item completed WITHOUT a result link (the tool succeeded but the
correlation query found nothing). -/
def sample_item_nolink : BatchKeyword :=
  { id := 1, batch_id := 1, keyword_id := some 1, search_term := "chess"
  , country := "United States", genre := "Games", status := .completed
  , analysis_search_id := none
  , error_message := some "No apps found in App Store for this keyword"
  , processed_at := some 3 }

/-- A keyword lookup resolving id 1 to `sample_kw_row`. -/
def sample_lookup : Nat → Option KeywordRow :=
  fun n => if n == 1 then some sample_kw_row else none

/-- A finished batch: both items terminal, nothing pending. -/
def sample_done_db : BatchDB :=
  { batch := { id := 1, report_id := 1, status := .completed, total_keywords := 2
             , completed_keywords := 1, failed_keywords := 1, notes := none
             , started_at := some 1, completed_at := some 9, duration_seconds := some 8 }
  , items :=
      [ { id := 1, batch_id := 1, keyword_id := some 1, search_term := "chess"
        , country := "United States", genre := "Games", status := .completed
        , analysis_search_id := some "s1", error_message := none, processed_at := some 2 }
      , { id := 2, batch_id := 1, keyword_id := some 2, search_term := "poker"
        , country := "United States", genre := "Games", status := .failed
        , analysis_search_id := none, error_message := some "Timeout after 60 seconds"
        , processed_at := some 5 } ] }

/-- A fresh batch as the builder creates it: one pending item, counters
zero, total equal to the item count. -/
def sample_fresh_db : BatchDB :=
  { batch := { id := 2, report_id := 1, status := .pending, total_keywords := 1
             , completed_keywords := 0, failed_keywords := 0, notes := none
             , started_at := none, completed_at := none, duration_seconds := none }
  , items :=
      [ { id := 1, batch_id := 2, keyword_id := some 1, search_term := "chess"
        , country := "United States", genre := "Games", status := .pending
        , analysis_search_id := none, error_message := none, processed_at := none } ] }

/-- The persisted outcome of importing a genuinely new report into
`sample_import_db` when the insert raises inside the outer transaction. -/
def failed_import_outcome : ImportDB × Except String Nat :=
  import_report sample_import_db "99999_111111" "2025-11-13T09:00:00" "2025-09" "en_US"
    "new.xlsx" sample_sheet_empty "United States" true

/-- The batch state `create_batch_from_json` builds from
`[sample_desc_us, sample_desc_uk]` over `sample_db_with_kw` as batch 7. -/
def sample_built_db : BatchDB :=
  { batch := { id := 7, report_id := 1, status := .pending, total_keywords := 2
             , completed_keywords := 0, failed_keywords := 0, notes := none
             , started_at := none, completed_at := none, duration_seconds := none }
  , items :=
      [ { id := 0, batch_id := 7, keyword_id := some 1, search_term := "chess"
        , country := "United States", genre := "Games", status := .pending
        , analysis_search_id := none, error_message := none, processed_at := none }
      , { id := 1, batch_id := 7, keyword_id := some 1, search_term := "chess"
        , country := "United States", genre := "Games", status := .pending
        , analysis_search_id := none, error_message := none, processed_at := none } ] }

/-! ## Theorems -/

theorem parse_data_row_scores {cols : Cols} {cf : String} {row : Row} {kw : ParsedKeyword}
    (h : parse_data_row cols cf row = some kw) :
    kw.total_score = kw.score_rank + kw.score_genre + kw.score_overall ∧
    kw.score_rank = score_rank_in_genre kw.rank_in_genre ∧
    kw.score_genre = score_popularity_in_genre kw.popularity_genre ∧
    kw.score_overall = score_overall_popularity kw.popularity_overall := by
  simp only [parse_data_row] at h
  split at h
  · exact Option.noConfusion h
  · split at h
    · exact Option.noConfusion h
    · split at h
      · injection h with h'
        subst h'
        exact ⟨rfl, rfl, rfl, rfl⟩
      · exact Option.noConfusion h

/-- C6: every imported keyword has `total_score` equal to
`score_rank + score_genre + score_overall`, where the components are the
documented band functions of rank-in-genre, popularity-in-genre and overall
popularity. -/
theorem c6_keyword_scoring (sheet : Sheet) (cols : Cols) (country_filter : String)
    (kw : ParsedKeyword) (h : kw ∈ collect_keywords sheet cols country_filter) :
    kw.total_score = kw.score_rank + kw.score_genre + kw.score_overall ∧
    kw.score_rank = (if 1 ≤ kw.rank_in_genre ∧ kw.rank_in_genre ≤ 10 then 3
      else if 11 ≤ kw.rank_in_genre ∧ kw.rank_in_genre ≤ 25 then 2
      else if 26 ≤ kw.rank_in_genre ∧ kw.rank_in_genre ≤ 50 then 1 else 0) ∧
    kw.score_genre = (if 76 ≤ kw.popularity_genre ∧ kw.popularity_genre ≤ 100 then 3
      else if 61 ≤ kw.popularity_genre ∧ kw.popularity_genre ≤ 75 then 2
      else if 50 ≤ kw.popularity_genre ∧ kw.popularity_genre ≤ 60 then 1 else 0) ∧
    kw.score_overall = (if 86 ≤ kw.popularity_overall ∧ kw.popularity_overall ≤ 100 then 5
      else if 71 ≤ kw.popularity_overall ∧ kw.popularity_overall ≤ 85 then 4
      else if 61 ≤ kw.popularity_overall ∧ kw.popularity_overall ≤ 70 then 3
      else if 50 ≤ kw.popularity_overall ∧ kw.popularity_overall ≤ 60 then 2 else 0) := by
  unfold collect_keywords at h
  obtain ⟨row, _, hp⟩ := List.mem_filterMap.mp h
  obtain ⟨h1, h2, h3, h4⟩ := parse_data_row_scores hp
  exact ⟨h1, h2, h3, h4⟩

/-- Witness for C6 at the concrete keyword `sample_sheet_one` yields. -/
theorem c6_witness :
    sample_kw.total_score = sample_kw.score_rank + sample_kw.score_genre + sample_kw.score_overall ∧
    sample_kw.score_rank = (if 1 ≤ sample_kw.rank_in_genre ∧ sample_kw.rank_in_genre ≤ 10 then 3
      else if 11 ≤ sample_kw.rank_in_genre ∧ sample_kw.rank_in_genre ≤ 25 then 2
      else if 26 ≤ sample_kw.rank_in_genre ∧ sample_kw.rank_in_genre ≤ 50 then 1 else 0) ∧
    sample_kw.score_genre = (if 76 ≤ sample_kw.popularity_genre ∧ sample_kw.popularity_genre ≤ 100 then 3
      else if 61 ≤ sample_kw.popularity_genre ∧ sample_kw.popularity_genre ≤ 75 then 2
      else if 50 ≤ sample_kw.popularity_genre ∧ sample_kw.popularity_genre ≤ 60 then 1 else 0) ∧
    sample_kw.score_overall = (if 86 ≤ sample_kw.popularity_overall ∧ sample_kw.popularity_overall ≤ 100 then 5
      else if 71 ≤ sample_kw.popularity_overall ∧ sample_kw.popularity_overall ≤ 85 then 4
      else if 61 ≤ sample_kw.popularity_overall ∧ sample_kw.popularity_overall ≤ 70 then 3
      else if 50 ≤ sample_kw.popularity_overall ∧ sample_kw.popularity_overall ≤ 60 then 2 else 0) :=
  c6_keyword_scoring sample_sheet_one ⟨0, 1, 2, 3, 4, 5, 6, 7⟩ "United States" sample_kw
    (by decide)

/-- C5: if a report with the same external report id and generation
timestamp already exists, import returns the existing report's id and the
database is unchanged (no insert, no keyword rows, no deactivation). -/
theorem c5_reimport_is_noop (db : ImportDB)
    (report_id generated_at data_month user_locale source_filename : String)
    (sheet : Sheet) (country_filter : String) (insert_raises : Bool) (eid : Nat)
    (h : check_existing_report db report_id generated_at = some eid) :
    import_report db report_id generated_at data_month user_locale source_filename
      sheet country_filter insert_raises = (db, .ok eid) := by
  unfold import_report
  rw [h]

/-- Witness for C5: re-importing `sample_report`'s file returns id 1 and
leaves the database untouched. -/
theorem c5_witness :
    import_report sample_import_db "93070_144880" "2025-10-13T17:50:00" "2025-09" "en_US"
      "again.xlsx" sample_sheet_empty "United States" false = (sample_import_db, .ok 1) :=
  c5_reimport_is_noop sample_import_db "93070_144880" "2025-10-13T17:50:00" "2025-09" "en_US"
    "again.xlsx" sample_sheet_empty "United States" false 1 (by decide)

/-- C4: invoking the processor on a batch with zero pending items returns
`(0, 0)` and leaves the batch row and every item row exactly as they
were. -/
theorem c4_no_pending_noop (s : BatchDB) (results : List ToolResult) (t0 t1 : Nat)
    (h : pending_ids s.items = []) :
    process_batch s results t0 t1 = (s, 0, 0) := by
  unfold process_batch
  rw [h]
  rfl

/-- Witness for C4 on a finished two-item batch. -/
theorem c4_witness : process_batch sample_done_db [] 0 0 = (sample_done_db, 0, 0) :=
  c4_no_pending_noop sample_done_db [] 0 0 (by decide)

/-- C10: `update_batch_counters` stores the exact aggregate counts of
`completed` and `failed` items, regardless of the previously stored counter
values (no increment of stale state), leaves the items untouched, and is
idempotent. -/
theorem c10_counters_recomputed :
    (∀ (s : BatchDB) (c f : Nat),
      (update_batch_counters { s with batch :=
          { s.batch with completed_keywords := c, failed_keywords := f } }).batch.completed_keywords
        = count_completed s.items ∧
      (update_batch_counters { s with batch :=
          { s.batch with completed_keywords := c, failed_keywords := f } }).batch.failed_keywords
        = count_failed s.items ∧
      (update_batch_counters { s with batch :=
          { s.batch with completed_keywords := c, failed_keywords := f } }).items = s.items) ∧
    (∀ s : BatchDB, update_batch_counters (update_batch_counters s) = update_batch_counters s) :=
  ⟨fun _ _ _ => ⟨rfl, rfl, rfl⟩, fun _ => rfl⟩

/-- C1 (code-bug evidence): importing a genuinely new report for an
occupied `month_locale_key` with an exception injected at the insert leaves
the prior report deactivated and no new report committed — the deactivation
was persisted by `deactivate_old_reports`' own transaction even though the
claimed-atomic sequence failed. -/
theorem c1_deactivation_survives_failed_insert :
    failed_import_outcome.2 = .error "insert failed" ∧
    failed_import_outcome.1.reports = [{ sample_report with is_active := false }] ∧
    failed_import_outcome.1.keywords = [] ∧
    failed_import_outcome.1 ≠ sample_import_db :=
  ⟨rfl, by decide, by decide, by decide⟩

/-- C7 (counterexample): a sheet whose content-matching header row sits at
row 8 makes the import fail with the fixed-offset row-7 error, even though
a content search (`find_headers_spec`, the spec's description) locates the
header — so the importer does not locate the header by content match, it
assumes the fixed offset 7. -/
theorem c7_counterexample :
    find_headers sample_sheet_shifted = none ∧
    find_headers_spec sample_sheet_shifted = some header_row ∧
    import_report sample_import_db "77777_222222" "2025-12-01T10:00:00" "2025-09" "en_US"
        "shifted.xlsx" sample_sheet_shifted "United States" false
      = (sample_import_db, .error "Could not find valid header row at row 7") :=
  ⟨by decide, by decide, rfl⟩

/-- C7 (amended): the importer reads the header from the fixed row 7 only,
requiring its first cell to equal `"Month"`; given that header row, the
importer fails with an error when any required column name is absent from
that row. -/
theorem c7_fixed_row_and_required_columns :
    (∀ (sheet : Sheet) (hrow : Row), find_headers sheet = some hrow ↔
        (sheet.get? 6 = some hrow ∧ hrow.head? = some (some (CellVal.str "Month")))) ∧
    (∀ headers : Row, (∃ name ∈ required_columns, column_index headers name = none) →
        resolve_columns headers = none) ∧
    (∀ (db : ImportDB) (rid gat dm ul fn : String) (sheet : Sheet) (cf : String) (ir : Bool)
        (headers : Row), check_existing_report db rid gat = none →
        find_headers sheet = some headers → resolve_columns headers = none →
        import_report db rid gat dm ul fn sheet cf ir =
          (db, .error "Could not find required column")) := by
  refine ⟨?_, ?_, ?_⟩
  · intro sheet hrow
    constructor
    · intro h
      unfold find_headers at h
      cases hs : sheet.get? 6 with
      | none => rw [hs] at h; exact Option.noConfusion h
      | some row =>
        rw [hs] at h
        have h' : (if row.head? = some (some (CellVal.str "Month")) then some row else none)
            = some hrow := h
        by_cases hc : row.head? = some (some (CellVal.str "Month"))
        · rw [if_pos hc] at h'
          injection h' with h''
          subst h''
          exact ⟨rfl, hc⟩
        · rw [if_neg hc] at h'
          exact Option.noConfusion h'
    · rintro ⟨h1, h2⟩
      unfold find_headers
      rw [h1]
      have : (if hrow.head? = some (some (CellVal.str "Month")) then some hrow else none)
          = some hrow := by rw [if_pos h2]
      exact this
  · rintro headers ⟨name, hmem, hnone⟩
    simp only [required_columns, List.mem_cons, List.not_mem_nil, or_false] at hmem
    rcases hmem with rfl | rfl | rfl | rfl | rfl | rfl | rfl | rfl <;>
      (unfold resolve_columns
       rw [hnone]
       all_goals
         (cases column_index headers "Month" <;>
           cases column_index headers "Country or Region" <;>
           cases column_index headers "Genre" <;>
           cases column_index headers "Search Term" <;>
           cases column_index headers "Rank in Genre" <;>
           cases column_index headers "Search Popularity in Genre (1-100)" <;>
           cases column_index headers "Search Popularity (1-100)" <;>
           cases column_index headers "Search Popularity (1-5)" <;>
           rfl))
  · intro db rid gat dm ul fn sheet cf ir headers h1 h2 h3
    simp only [import_report, h1, h2, h3]

/-- The reporter's successful list has exactly one entry per item
satisfying `report_success_cond`, and its failed list one per item
satisfying `report_failure_cond`. -/
theorem load_batch_results_lengths (lookup : Nat → Option KeywordRow) :
    ∀ items : List BatchKeyword,
      (load_batch_results items lookup).1.length
        = (items.filter (report_success_cond lookup)).length ∧
      (load_batch_results items lookup).2.length
        = (items.filter (report_failure_cond lookup)).length := by
  intro items
  induction items with
  | nil => exact ⟨rfl, rfl⟩
  | cons bk rest ih =>
    cases hk : bk.keyword_id.bind lookup with
    | none =>
      have hs : report_success_cond lookup bk = false := by
        unfold report_success_cond; rw [hk]; rfl
      have hf : report_failure_cond lookup bk = false := by
        unfold report_failure_cond; rw [hk]; rfl
      simp [load_batch_results, hk, List.filter_cons, hs, hf, ih.1, ih.2]
    | some kd =>
      by_cases hc : (bk.status == ItemStatus.completed && opt_truthy bk.analysis_search_id) = true
      · have hs : report_success_cond lookup bk = true := by
          unfold report_success_cond; rw [hk, hc]; rfl
        have hf : report_failure_cond lookup bk = false := by
          unfold report_failure_cond; rw [hk, hc]; rfl
        simp [load_batch_results, hk, hc, List.filter_cons, hs, hf, ih.1, ih.2]
      · have hcf : (bk.status == ItemStatus.completed && opt_truthy bk.analysis_search_id)
            = false := Bool.eq_false_iff.mpr hc
        have hs : report_success_cond lookup bk = false := by
          unfold report_success_cond; rw [hk, hcf]; rfl
        have hf : report_failure_cond lookup bk = true := by
          unfold report_failure_cond; rw [hk, hcf]; rfl
        simp [load_batch_results, hk, hcf, List.filter_cons, hs, hf, ih.1, ih.2]

/-- Every failed-list entry carries the search term and error text of an
item of the batch that is not completed-with-truthy-link. -/
theorem load_batch_results_failed_sound (lookup : Nat → Option KeywordRow) :
    ∀ (items : List BatchKeyword) (p : ReportFailure),
      p ∈ (load_batch_results items lookup).2 →
      ∃ bk ∈ items, bk.search_term = p.1 ∧ bk.error_message = p.2.2 ∧
        report_failure_cond lookup bk = true := by
  intro items
  induction items with
  | nil => intro p hp; exact absurd hp (by simp [load_batch_results])
  | cons bk rest ih =>
    intro p hp
    cases hk : bk.keyword_id.bind lookup with
    | none =>
      simp only [load_batch_results, hk] at hp
      obtain ⟨bk', hmem, hrest⟩ := ih p hp
      exact ⟨bk', List.mem_cons_of_mem bk hmem, hrest⟩
    | some kd =>
      simp only [load_batch_results, hk] at hp
      by_cases hc : (bk.status == ItemStatus.completed && opt_truthy bk.analysis_search_id) = true
      · rw [if_pos hc] at hp
        obtain ⟨bk', hmem, hrest⟩ := ih p hp
        exact ⟨bk', List.mem_cons_of_mem bk hmem, hrest⟩
      · rw [if_neg hc] at hp
        rcases List.mem_cons.mp hp with h | h
        · subst h
          refine ⟨bk, List.mem_cons_self bk rest, rfl, rfl, ?_⟩
          unfold report_failure_cond
          rw [hk, Bool.eq_false_iff.mpr hc]
          rfl
        · obtain ⟨bk', hmem, hrest⟩ := ih p h
          exact ⟨bk', List.mem_cons_of_mem bk hmem, hrest⟩

/-- C8 (counterexample): an item completed with an explanatory note and no
result link is placed in the failed/unprocessed list, not the
successful-results list — the reporter requires a truthy result link, not
just status `completed`. -/
theorem c8_counterexample :
    sample_item_nolink.status = ItemStatus.completed ∧
    load_batch_results [sample_item_nolink] sample_lookup =
      ([], [("chess", sample_kw_row, some "No apps found in App Store for this keyword")]) := by
  decide

/-- C8 (amended): the reporter's successful list contains exactly the items
whose keyword row resolves, whose status is `completed` AND whose result
link is non-null and non-empty; every other resolvable item — including
items completed with a note and no link — appears in the failed/unprocessed
list together with its error text (items whose keyword row does not resolve
are omitted from both lists). -/
theorem c8_success_requires_link :
    (∀ (items : List BatchKeyword) (lookup : Nat → Option KeywordRow),
      (load_batch_results items lookup).1.length
        = (items.filter (report_success_cond lookup)).length ∧
      (load_batch_results items lookup).2.length
        = (items.filter (report_failure_cond lookup)).length) ∧
    (∀ (items : List BatchKeyword) (lookup : Nat → Option KeywordRow) (p : ReportFailure),
      p ∈ (load_batch_results items lookup).2 →
      ∃ bk ∈ items, bk.search_term = p.1 ∧ bk.error_message = p.2.2 ∧
        report_failure_cond lookup bk = true) :=
  ⟨fun items lookup => load_batch_results_lengths lookup items,
   fun items lookup => load_batch_results_failed_sound lookup items⟩

/-- C9 (counterexample): a descriptor whose own country differs from the
first descriptor's is NOT necessarily recorded as an unmatched warning and
excluded — here the UK descriptor's term and genre match a keyword under
the first descriptor's report and country, so it is included as a second
batch item and the unmatched list is empty. -/
theorem c9_counterexample :
    sample_desc_uk.country ≠ sample_desc_us.country ∧
    (create_batch_from_json sample_db_with_kw [sample_desc_us, sample_desc_uk] none 7).toOption.map
        (fun p => (p.2, p.1.items.map (fun it => (it.search_term, it.genre, it.country))))
      = some ([], [("chess", "Games", "United States"), ("chess", "Games", "United States")]) := by
  decide

/-- C9 (amended): the target report and lookup country are resolved from
the first descriptor alone; every descriptor of the list is then matched
against that single report and country — its own month and country fields
are ignored by the lookup — and it is excluded (with a warning) exactly
when that lookup finds no keyword row for its term and genre. -/
theorem c9_first_descriptor_scope (db : ImportDB) (first : Descriptor)
    (rest : List Descriptor) (notes : Option String) (bid : Nat) (out : BatchDB)
    (unmatched : List Descriptor)
    (h : create_batch_from_json db (first :: rest) notes bid = .ok (out, unmatched)) :
    ∃ country rep, first.country = some country ∧
      resolve_report db (first.month.getD "") country = some rep ∧
      (∀ d ∈ first :: rest, (d ∈ unmatched ↔ match_descriptor db rep.id country d = none)) ∧
      (∀ (d : Descriptor) (m c : Option String),
        match_descriptor db rep.id country { d with month := m, country := c }
          = match_descriptor db rep.id country d) ∧
      (∀ it ∈ out.items, it.country = country) := by
  simp only [create_batch_from_json] at h
  split at h
  · exact Except.noConfusion h
  · rename_i hcond
    split at h
    · exact Except.noConfusion h
    · rename_i rep hrep
      split at h
      · exact Except.noConfusion h
      · injection h with h'
        injection h' with hout hunm
        have hy : opt_truthy first.country = true := by
          have hxy : (opt_truthy first.month && opt_truthy first.country) = true := by
            revert hcond
            cases opt_truthy first.month && opt_truthy first.country <;> simp
          simp only [Bool.and_eq_true] at hxy
          exact hxy.2
        cases hfc : first.country with
        | none => rw [hfc] at hy; exact Bool.noConfusion hy
        | some c0 =>
          rw [hfc] at hrep hout hunm
          simp only [Option.getD_some] at hrep hout hunm
          refine ⟨c0, rep, rfl, hrep, ?_, ?_, ?_⟩
          · intro d hd
            rw [← hunm, List.mem_filter]
            simp [hd, Option.isNone_iff_eq_none]
          · intro d m c
            rfl
          · intro it hit
            rw [← hout] at hit
            obtain ⟨p, _, hp⟩ := List.mem_map.mp hit
            rw [← hp]

/-- Witness for C9's amended statement at the concrete two-descriptor
selection. -/
theorem c9_witness :
    ∃ country rep, sample_desc_us.country = some country ∧
      resolve_report sample_db_with_kw (sample_desc_us.month.getD "") country = some rep ∧
      (∀ d ∈ [sample_desc_us, sample_desc_uk],
        (d ∈ ([] : List Descriptor) ↔
          match_descriptor sample_db_with_kw rep.id country d = none)) ∧
      (∀ (d : Descriptor) (m c : Option String),
        match_descriptor sample_db_with_kw rep.id country { d with month := m, country := c }
          = match_descriptor sample_db_with_kw rep.id country d) ∧
      (∀ it ∈ sample_built_db.items, it.country = country) :=
  c9_first_descriptor_scope sample_db_with_kw sample_desc_us [sample_desc_uk] none 7
    sample_built_db [] (by rfl)

/-- Items after `update_batch_keyword_status`: each comes from an item of
the input list, keeping its id; the targeted id gets the new status, every
other item is untouched. -/
theorem update_status_spec {items : List BatchKeyword} {bkid : Nat} {st : ItemStatus}
    {sid em : Option String} {now : Nat} :
    ∀ it' ∈ update_batch_keyword_status items bkid st sid em now,
      ∃ it ∈ items, it'.id = it.id ∧
        ((it.id = bkid ∧ it'.status = st) ∨ (it.id ≠ bkid ∧ it' = it)) := by
  intro it' h
  unfold update_batch_keyword_status at h
  obtain ⟨it, hit, heq⟩ := List.mem_map.mp h
  by_cases hid : it.id = bkid
  · have hb : (it.id == bkid) = true := by simp [hid]
    rw [if_pos hb] at heq
    cases sid with
    | some v => exact ⟨it, hit, by rw [← heq], Or.inl ⟨hid, by rw [← heq]⟩⟩
    | none => exact ⟨it, hit, by rw [← heq], Or.inl ⟨hid, by rw [← heq]⟩⟩
  · have hb : ¬((it.id == bkid) = true) := by simp [hid]
    rw [if_neg hb] at heq
    exact ⟨it, hit, by rw [← heq], Or.inr ⟨hid, heq.symm⟩⟩

/-- Items after `mark_item_result`: the targeted id ends in a terminal
status (every branch of the loop body writes `completed` or `failed`),
every other item is untouched. -/
theorem mark_item_result_spec {items : List BatchKeyword} {bkid : Nat} {r : ToolResult}
    {now : Nat} :
    ∀ it' ∈ (mark_item_result items bkid r now).1,
      ∃ it ∈ items, it'.id = it.id ∧
        ((it.id = bkid ∧ (it'.status = ItemStatus.completed ∨ it'.status = ItemStatus.failed))
          ∨ (it.id ≠ bkid ∧ it' = it)) := by
  intro it' h
  cases r with
  | timeout =>
    simp only [mark_item_result] at h
    obtain ⟨it, hit, hid, hc⟩ := update_status_spec it' h
    exact ⟨it, hit, hid, hc.imp (fun p => ⟨p.1, Or.inr p.2⟩) id⟩
  | excErr m =>
    simp only [mark_item_result] at h
    obtain ⟨it, hit, hid, hc⟩ := update_status_spec it' h
    exact ⟨it, hit, hid, hc.imp (fun p => ⟨p.1, Or.inr p.2⟩) id⟩
  | exited rc stderr sid =>
    simp only [mark_item_result] at h
    by_cases hrc : (rc == 0) = true
    · rw [if_pos hrc] at h
      cases sid with
      | some v =>
        have h2 : it' ∈ update_batch_keyword_status items bkid .completed (some v) none now := h
        obtain ⟨it, hit, hid, hc⟩ := update_status_spec it' h2
        exact ⟨it, hit, hid, hc.imp (fun p => ⟨p.1, Or.inl p.2⟩) id⟩
      | none =>
        have h2 : it' ∈ update_batch_keyword_status items bkid .completed none
            (some "No apps found in App Store for this keyword") now := h
        obtain ⟨it, hit, hid, hc⟩ := update_status_spec it' h2
        exact ⟨it, hit, hid, hc.imp (fun p => ⟨p.1, Or.inl p.2⟩) id⟩
    · rw [if_neg hrc] at h
      have h2 : it' ∈ update_batch_keyword_status items bkid .failed none
          (some (if stderr == "" then "Unknown error" else stderr.take 200)) now := h
      obtain ⟨it, hit, hid, hc⟩ := update_status_spec it' h2
      exact ⟨it, hit, hid, hc.imp (fun p => ⟨p.1, Or.inr p.2⟩) id⟩

/-- Items after one full loop iteration: the processed id is terminal,
every other item is untouched. -/
theorem step_states_item_spec (s : BatchDB) (bkid : Nat) (r : ToolResult) (now : Nat) :
    ∀ it' ∈ (step_states s bkid r now).2.1.items,
      ∃ it ∈ s.items, it'.id = it.id ∧
        ((it.id = bkid ∧ (it'.status = ItemStatus.completed ∨ it'.status = ItemStatus.failed))
          ∨ (it.id ≠ bkid ∧ it' = it)) := by
  intro it' h
  have h' : it' ∈ (mark_item_result
      (update_batch_keyword_status s.items bkid .in_progress none none now) bkid r now).1 := h
  obtain ⟨it1, hit1, hid1, hc1⟩ := mark_item_result_spec it' h'
  obtain ⟨it0, hit0, hid0, hc0⟩ := update_status_spec it1 hit1
  refine ⟨it0, hit0, by rw [hid1, hid0], ?_⟩
  rcases hc1 with ⟨ha, hb⟩ | ⟨ha, hb⟩
  · exact Or.inl ⟨by rw [← hid0]; exact ha, hb⟩
  · rcases hc0 with ⟨ha0, _⟩ | ⟨ha0, hb0⟩
    · exact absurd (hid0.trans ha0) ha
    · exact Or.inr ⟨ha0, hb.trans hb0⟩

theorem update_status_length (items : List BatchKeyword) (bkid : Nat) (st : ItemStatus)
    (sid em : Option String) (now : Nat) :
    (update_batch_keyword_status items bkid st sid em now).length = items.length := by
  unfold update_batch_keyword_status
  exact List.length_map _ _

theorem mark_item_result_length (items : List BatchKeyword) (bkid : Nat) (r : ToolResult)
    (now : Nat) :
    ((mark_item_result items bkid r now).1).length = items.length := by
  cases r with
  | timeout =>
    show (update_batch_keyword_status items bkid .failed none
        (some "Timeout after 60 seconds") now).length = items.length
    exact update_status_length _ _ _ _ _ _
  | excErr m =>
    show (update_batch_keyword_status items bkid .failed none (some m) now).length
        = items.length
    exact update_status_length _ _ _ _ _ _
  | exited rc stderr sid =>
    simp only [mark_item_result]
    by_cases hrc : (rc == 0) = true
    · rw [if_pos hrc]
      cases sid with
      | some v =>
        show (update_batch_keyword_status items bkid .completed (some v) none now).length
            = items.length
        exact update_status_length _ _ _ _ _ _
      | none =>
        show (update_batch_keyword_status items bkid .completed none
            (some "No apps found in App Store for this keyword") now).length = items.length
        exact update_status_length _ _ _ _ _ _
    · rw [if_neg hrc]
      show (update_batch_keyword_status items bkid .failed none
          (some (if stderr == "" then "Unknown error" else stderr.take 200)) now).length
          = items.length
      exact update_status_length _ _ _ _ _ _

theorem step_states_items_length (s : BatchDB) (bkid : Nat) (r : ToolResult) (now : Nat) :
    (step_states s bkid r now).2.1.items.length = s.items.length := by
  show ((mark_item_result (update_batch_keyword_status s.items bkid .in_progress none none now)
      bkid r now).1).length = s.items.length
  rw [mark_item_result_length, update_status_length]

/-- The success flag of one iteration is exactly `returncode == 0`. -/
theorem step_states_flag (s : BatchDB) (i : Nat) (r : ToolResult) (now : Nat) :
    (step_states s i r now).2.2 = tool_success r := by
  cases r with
  | timeout => rfl
  | excErr m => rfl
  | exited rc stderr sid =>
    show (mark_item_result
        (update_batch_keyword_status s.items i .in_progress none none now)
        i (.exited rc stderr sid) now).2 = (rc == 0)
    simp only [mark_item_result]
    by_cases hrc : (rc == 0) = true
    · rw [if_pos hrc]; cases sid <;> exact hrc.symm
    · rw [if_neg hrc]; exact (Bool.eq_false_iff.mpr hrc).symm

/-- At most all items are counted: completed plus failed never exceeds the
item count. -/
theorem counts_le (l : List BatchKeyword) :
    count_completed l + count_failed l ≤ l.length := by
  induction l with
  | nil => simp [count_completed, count_failed]
  | cons it rest ih =>
    simp only [count_completed, count_failed] at ih ⊢
    rw [List.filter_cons, List.filter_cons]
    cases hstat : it.status <;> simp [hstat] <;> omega

/-- When every item is terminal, completed plus failed equals the item
count. -/
theorem counts_terminal : ∀ l : List BatchKeyword,
    (∀ it ∈ l, it.status = ItemStatus.completed ∨ it.status = ItemStatus.failed) →
    count_completed l + count_failed l = l.length := by
  intro l
  induction l with
  | nil => intro _; simp [count_completed, count_failed]
  | cons it rest ih =>
    intro h
    have hit := h it (List.mem_cons_self it rest)
    have hrest := fun x hx => h x (List.mem_cons_of_mem it hx)
    have hr := ih hrest
    simp only [count_completed, count_failed] at hr ⊢
    rw [List.filter_cons, List.filter_cons]
    rcases hit with hstat | hstat <;> simp [hstat] <;> omega

theorem run_items_cons (s : BatchDB) (i : Nat) (r : ToolResult)
    (rest : List (Nat × ToolResult)) (now : Nat) :
    run_items s ((i, r) :: rest) now =
      ((run_items (step_states s i r now).2.1 rest (now + 1)).1,
       (if (step_states s i r now).2.2
        then (run_items (step_states s i r now).2.1 rest (now + 1)).2.1 + 1
        else (run_items (step_states s i r now).2.1 rest (now + 1)).2.1),
       (if (step_states s i r now).2.2
        then (run_items (step_states s i r now).2.1 rest (now + 1)).2.2
        else (run_items (step_states s i r now).2.1 rest (now + 1)).2.2 + 1)) := rfl

theorem run_items_trace_cons (s : BatchDB) (i : Nat) (r : ToolResult)
    (rest : List (Nat × ToolResult)) (now : Nat) :
    run_items_trace s ((i, r) :: rest) now =
      (step_states s i r now).1
        ++ run_items_trace (step_states s i r now).2.1 rest (now + 1) := rfl

/-- The accumulators count exactly the successful and the unsuccessful tool
outcomes of the work list. -/
theorem run_items_counts : ∀ (work : List (Nat × ToolResult)) (s : BatchDB) (now : Nat),
    (run_items s work now).2.1 = (work.filter (fun q => tool_success q.2)).length ∧
    (run_items s work now).2.2 = (work.filter (fun q => !(tool_success q.2))).length := by
  intro work
  induction work with
  | nil => intro s now; exact ⟨rfl, rfl⟩
  | cons p rest ih =>
    intro s now
    obtain ⟨i, r⟩ := p
    rw [run_items_cons]
    obtain ⟨ih1, ih2⟩ := ih (step_states s i r now).2.1 (now + 1)
    rw [step_states_flag]
    constructor
    · rw [ih1, List.filter_cons]
      by_cases ht : tool_success r = true
      · simp [ht]
      · simp [ht]
    · rw [ih2, List.filter_cons]
      by_cases ht : tool_success r = true
      · simp [ht]
      · simp [ht]

/-- Each work entry increments exactly one accumulator. -/
theorem run_items_total : ∀ (work : List (Nat × ToolResult)) (s : BatchDB) (now : Nat),
    (run_items s work now).2.1 + (run_items s work now).2.2 = work.length := by
  intro work
  induction work with
  | nil => intro s now; rfl
  | cons p rest ih =>
    intro s now
    obtain ⟨i, r⟩ := p
    rw [run_items_cons]
    have hr := ih (step_states s i r now).2.1 (now + 1)
    by_cases hf : (step_states s i r now).2.2 = true
    · simp [hf]; omega
    · simp [hf]; omega

/-- Invariant through the loop: the stored total stays equal to the item
count, and at the loop's end and at every committed intermediate state the
counters sum to at most the total. -/
theorem run_items_invariant : ∀ (work : List (Nat × ToolResult)) (s : BatchDB) (now : Nat),
    s.batch.total_keywords = s.items.length →
    s.batch.completed_keywords + s.batch.failed_keywords ≤ s.batch.total_keywords →
    ((run_items s work now).1.batch.total_keywords = (run_items s work now).1.items.length ∧
     (run_items s work now).1.batch.completed_keywords
         + (run_items s work now).1.batch.failed_keywords
       ≤ (run_items s work now).1.batch.total_keywords ∧
     ∀ s' ∈ run_items_trace s work now,
       s'.batch.completed_keywords + s'.batch.failed_keywords ≤ s'.batch.total_keywords) := by
  intro work
  induction work with
  | nil =>
    intro s now h1 h2
    exact ⟨h1, h2, fun s' hs' => absurd hs' (List.not_mem_nil s')⟩
  | cons p rest ih =>
    intro s now h1 h2
    obtain ⟨i, r⟩ := p
    have hlen3 : (step_states s i r now).2.1.items.length = s.items.length :=
      step_states_items_length s i r now
    have hsz3 : (step_states s i r now).2.1.batch.total_keywords
        = (step_states s i r now).2.1.items.length := by
      have htot : (step_states s i r now).2.1.batch.total_keywords
          = s.batch.total_keywords := rfl
      rw [htot, h1, hlen3]
    have hctr3 : (step_states s i r now).2.1.batch.completed_keywords
        + (step_states s i r now).2.1.batch.failed_keywords
        ≤ (step_states s i r now).2.1.batch.total_keywords := by
      have hcc : (step_states s i r now).2.1.batch.completed_keywords
          = count_completed (step_states s i r now).2.1.items := rfl
      have hcf : (step_states s i r now).2.1.batch.failed_keywords
          = count_failed (step_states s i r now).2.1.items := rfl
      rw [hcc, hcf, hsz3]
      exact counts_le _
    have htrace_step : ∀ s' ∈ (step_states s i r now).1,
        s'.batch.completed_keywords + s'.batch.failed_keywords ≤ s'.batch.total_keywords := by
      intro s' hs'
      simp only [step_states, List.mem_cons, List.not_mem_nil, or_false] at hs'
      rcases hs' with rfl | rfl | rfl
      · exact h2
      · exact h2
      · exact hctr3
    obtain ⟨a1, a2, a3⟩ := ih (step_states s i r now).2.1 (now + 1) hsz3 hctr3
    refine ⟨a1, a2, ?_⟩
    intro s' hs'
    rw [run_items_trace_cons] at hs'
    rcases List.mem_append.mp hs' with hmem | hmem
    · exact htrace_step s' hmem
    · exact a3 s' hmem

/-- After the loop: if no item starts `in_progress` and every pending item
is scheduled in the work list, every item ends terminal. -/
theorem run_items_terminal : ∀ (work : List (Nat × ToolResult)) (s : BatchDB) (now : Nat),
    (∀ it ∈ s.items, it.status ≠ ItemStatus.in_progress) →
    (∀ it ∈ s.items, it.status = ItemStatus.pending → it.id ∈ work.map Prod.fst) →
    ∀ it ∈ (run_items s work now).1.items,
      it.status = ItemStatus.completed ∨ it.status = ItemStatus.failed := by
  intro work
  induction work with
  | nil =>
    intro s now hni hpend it hit
    have hni' := hni it hit
    have hpend' := hpend it hit
    cases hstat : it.status with
    | pending => exact absurd (hpend' hstat) (by simp)
    | in_progress => exact absurd hstat hni'
    | completed => exact Or.inl rfl
    | failed => exact Or.inr rfl
  | cons p rest ih =>
    intro s now hni hpend it hit
    obtain ⟨i, r⟩ := p
    refine ih (step_states s i r now).2.1 (now + 1) ?_ ?_ it hit
    · intro it' hit'
      obtain ⟨it0, hit0, _, hc⟩ := step_states_item_spec s i r now it' hit'
      rcases hc with ⟨_, hterm⟩ | ⟨_, heq⟩
      · rcases hterm with h | h <;> simp [h]
      · rw [heq]; exact hni it0 hit0
    · intro it' hit' hstat
      obtain ⟨it0, hit0, hid, hc⟩ := step_states_item_spec s i r now it' hit'
      rcases hc with ⟨_, hterm⟩ | ⟨hneq, heq⟩
      · rcases hterm with h | h <;> rw [h] at hstat <;> exact ItemStatus.noConfusion hstat
      · rw [heq] at hstat
        have hmem := hpend it0 hit0 hstat
        rcases List.mem_cons.mp hmem with hc' | hc'
        · exact absurd hc' hneq
        · rw [hid]; exact hc'

/-- After a non-empty loop, the stored counters are the last recomputation:
exact counts over the final item list. -/
theorem run_items_final_counters : ∀ (work : List (Nat × ToolResult)) (s : BatchDB)
    (now : Nat), work ≠ [] →
    (run_items s work now).1.batch.completed_keywords
        = count_completed (run_items s work now).1.items ∧
    (run_items s work now).1.batch.failed_keywords
        = count_failed (run_items s work now).1.items := by
  intro work
  induction work with
  | nil => intro s now h; exact absurd rfl h
  | cons p rest ih =>
    intro s now _
    obtain ⟨i, r⟩ := p
    by_cases hrest : rest = []
    · subst hrest
      exact ⟨rfl, rfl⟩
    · exact ih (step_states s i r now).2.1 (now + 1) hrest

/-- Filtering a zip on the second component matches filtering the second
list, when the lists have equal length. -/
theorem zip_filter_snd (p : ToolResult → Bool) : ∀ (l1 : List Nat) (l2 : List ToolResult),
    l1.length = l2.length →
    ((l1.zip l2).filter (fun q => p q.2)).length = (l2.filter p).length := by
  intro l1
  induction l1 with
  | nil =>
    intro l2 h
    cases l2 with
    | nil => rfl
    | cons b bs => exact absurd h (by simp)
  | cons a as ih =>
    intro l2 h
    cases l2 with
    | nil => exact absurd h (by simp)
    | cons b bs =>
      have h' : as.length = bs.length := by simpa using h
      rw [List.zip_cons_cons, List.filter_cons, List.filter_cons]
      by_cases hp : p b = true
      · simp [hp, ih bs h']
      · simp [hp, ih bs h']

/-- A list of terminal items has no pending snapshot. -/
theorem pending_ids_eq_nil {l : List BatchKeyword}
    (h : ∀ it ∈ l, it.status = ItemStatus.completed ∨ it.status = ItemStatus.failed) :
    pending_ids l = [] := by
  unfold pending_ids
  have hfil : l.filter (fun it => it.status == ItemStatus.pending) = [] := by
    rw [List.filter_eq_nil_iff]
    intro it hit
    rcases h it hit with hs | hs <;> simp [hs]
  rw [hfil]
  rfl

/-- C2: processing a batch with at least one pending item yields
`(succeeded, failed)` counting the items' tool outcomes, with
`succeeded + failed` equal to the number of items processed; the final
batch status is `failed` exactly when no item succeeded, and any outcome
with at least one success — mixed failures included — ends `completed`. -/
theorem c2_final_status_rule (s : BatchDB) (results : List ToolResult) (t0 t1 : Nat)
    (hne : pending_ids s.items ≠ [])
    (hlen : results.length = (pending_ids s.items).length) :
    (process_batch s results t0 t1).2.1 = (results.filter tool_success).length ∧
    (process_batch s results t0 t1).2.2
        = (results.filter (fun r => !(tool_success r))).length ∧
    (process_batch s results t0 t1).2.1 + (process_batch s results t0 t1).2.2
        = results.length ∧
    ((process_batch s results t0 t1).1.batch.status = BatchStatus.failed ↔
      (process_batch s results t0 t1).2.1 = 0) ∧
    (0 < (process_batch s results t0 t1).2.1 →
      (process_batch s results t0 t1).1.batch.status = BatchStatus.completed) := by
  have hemp : ¬((pending_ids s.items).isEmpty = true) := by
    intro hcontra
    cases hl : pending_ids s.items with
    | nil => exact hne hl
    | cons a as => rw [hl] at hcontra; exact Bool.noConfusion hcontra
  have hP : process_batch s results t0 t1 =
      (batch_finalized
        (run_items (batch_started s t0) ((pending_ids s.items).zip results) t0).1
        (run_items (batch_started s t0) ((pending_ids s.items).zip results) t0).2.1
        (run_items (batch_started s t0) ((pending_ids s.items).zip results) t0).2.2 t0 t1,
       (run_items (batch_started s t0) ((pending_ids s.items).zip results) t0).2.1,
       (run_items (batch_started s t0) ((pending_ids s.items).zip results) t0).2.2) := by
    simp only [process_batch]
    rw [if_neg hemp]
  obtain ⟨hc1, hc2⟩ :=
    run_items_counts ((pending_ids s.items).zip results) (batch_started s t0) t0
  have hsum := run_items_total ((pending_ids s.items).zip results) (batch_started s t0) t0
  have hzl : ((pending_ids s.items).zip results).length = results.length := by
    rw [List.length_zip, hlen, Nat.min_self]
  have hf1 : (((pending_ids s.items).zip results).filter (fun q => tool_success q.2)).length
      = (results.filter tool_success).length := zip_filter_snd tool_success _ _ hlen.symm
  have hf2 : (((pending_ids s.items).zip results).filter
        (fun q => !(tool_success q.2))).length
      = (results.filter (fun r => !(tool_success r))).length :=
    zip_filter_snd (fun r => !(tool_success r)) _ _ hlen.symm
  have hpos : 0 < results.length := by
    rw [hlen]
    cases hl : pending_ids s.items with
    | nil => exact absurd hl hne
    | cons a as => simp
  have e1 : (process_batch s results t0 t1).2.1
      = (run_items (batch_started s t0) ((pending_ids s.items).zip results) t0).2.1 := by
    rw [hP]
  have e2 : (process_batch s results t0 t1).2.2
      = (run_items (batch_started s t0) ((pending_ids s.items).zip results) t0).2.2 := by
    rw [hP]
  have e3 : (process_batch s results t0 t1).1.batch.status
      = (if ((run_items (batch_started s t0) ((pending_ids s.items).zip results) t0).2.2 == 0)
         then BatchStatus.completed
         else if ((run_items (batch_started s t0)
              ((pending_ids s.items).zip results) t0).2.1 == 0)
         then BatchStatus.failed
         else BatchStatus.completed) := by
    rw [hP]; rfl
  have hSF : (run_items (batch_started s t0) ((pending_ids s.items).zip results) t0).2.1
      + (run_items (batch_started s t0) ((pending_ids s.items).zip results) t0).2.2
      = results.length := by rw [hsum, hzl]
  refine ⟨by rw [e1, hc1, hf1], by rw [e2, hc2, hf2], by rw [e1, e2, hSF], ?_, ?_⟩
  · rw [e3, e1]
    by_cases hF : (run_items (batch_started s t0)
        ((pending_ids s.items).zip results) t0).2.2 = 0
    · have hS0 : (run_items (batch_started s t0)
          ((pending_ids s.items).zip results) t0).2.1 ≠ 0 := by omega
      rw [if_pos (by simp [hF])]
      exact iff_of_false (by simp) hS0
    · rw [if_neg (by simp [hF])]
      by_cases hS : (run_items (batch_started s t0)
          ((pending_ids s.items).zip results) t0).2.1 = 0
      · rw [if_pos (by simp [hS])]
        exact iff_of_true rfl hS
      · rw [if_neg (by simp [hS])]
        exact iff_of_false (by simp) hS
  · intro hS
    rw [e1] at hS
    have hS0 : (run_items (batch_started s t0)
        ((pending_ids s.items).zip results) t0).2.1 ≠ 0 := Nat.pos_iff_ne_zero.mp hS
    rw [e3]
    by_cases hF : (run_items (batch_started s t0)
        ((pending_ids s.items).zip results) t0).2.2 = 0
    · rw [if_pos (by simp [hF])]
    · rw [if_neg (by simp [hF]), if_neg (by simp [hS0])]

/-- Witness for C2: a one-item batch whose single tool call times out is
counted `(0, 1)` and the batch ends `failed`. -/
theorem c2_witness :
    (process_batch sample_fresh_db [ToolResult.timeout] 0 5).2.1
        = ([ToolResult.timeout].filter tool_success).length ∧
    (process_batch sample_fresh_db [ToolResult.timeout] 0 5).2.2
        = ([ToolResult.timeout].filter (fun r => !(tool_success r))).length ∧
    (process_batch sample_fresh_db [ToolResult.timeout] 0 5).2.1
        + (process_batch sample_fresh_db [ToolResult.timeout] 0 5).2.2
        = [ToolResult.timeout].length ∧
    ((process_batch sample_fresh_db [ToolResult.timeout] 0 5).1.batch.status
        = BatchStatus.failed ↔
      (process_batch sample_fresh_db [ToolResult.timeout] 0 5).2.1 = 0) ∧
    (0 < (process_batch sample_fresh_db [ToolResult.timeout] 0 5).2.1 →
      (process_batch sample_fresh_db [ToolResult.timeout] 0 5).1.batch.status
        = BatchStatus.completed) :=
  c2_final_status_rule sample_fresh_db [ToolResult.timeout] 0 5 (by decide) (by decide)

/-- C3: given the builder's invariant (total equals the item count) and a
starting state with sane counters and no stuck `in_progress` item, every
state committed during processing satisfies
`completed + failed ≤ total`, and an invocation that processes the pending
items leaves zero pending items and `completed + failed = total`. -/
theorem c3_counter_invariant (s : BatchDB) (results : List ToolResult) (t0 t1 : Nat)
    (htot : s.batch.total_keywords = s.items.length)
    (hctr : s.batch.completed_keywords + s.batch.failed_keywords ≤ s.batch.total_keywords)
    (hni : ∀ it ∈ s.items, it.status ≠ ItemStatus.in_progress)
    (hlen : results.length = (pending_ids s.items).length)
    (hne : pending_ids s.items ≠ []) :
    (∀ s' ∈ process_batch_trace s results t0 t1,
      s'.batch.completed_keywords + s'.batch.failed_keywords ≤ s'.batch.total_keywords) ∧
    pending_ids (process_batch s results t0 t1).1.items = [] ∧
    (process_batch s results t0 t1).1.batch.completed_keywords
        + (process_batch s results t0 t1).1.batch.failed_keywords
      = (process_batch s results t0 t1).1.batch.total_keywords := by
  have hemp : ¬((pending_ids s.items).isEmpty = true) := by
    intro hcontra
    cases hl : pending_ids s.items with
    | nil => exact hne hl
    | cons a as => rw [hl] at hcontra; exact Bool.noConfusion hcontra
  have hzl : ((pending_ids s.items).zip results).length = results.length := by
    rw [List.length_zip, hlen, Nat.min_self]
  have hzne : ((pending_ids s.items).zip results) ≠ [] := by
    intro hcontra
    have h0 : results.length = 0 := by rw [← hzl, hcontra]; rfl
    rw [hlen] at h0
    exact hne (List.length_eq_zero.mp h0)
  have hP : process_batch s results t0 t1 =
      (batch_finalized
        (run_items (batch_started s t0) ((pending_ids s.items).zip results) t0).1
        (run_items (batch_started s t0) ((pending_ids s.items).zip results) t0).2.1
        (run_items (batch_started s t0) ((pending_ids s.items).zip results) t0).2.2 t0 t1,
       (run_items (batch_started s t0) ((pending_ids s.items).zip results) t0).2.1,
       (run_items (batch_started s t0) ((pending_ids s.items).zip results) t0).2.2) := by
    simp only [process_batch]
    rw [if_neg hemp]
  have hT : process_batch_trace s results t0 t1 =
      batch_started s t0 ::
        (run_items_trace (batch_started s t0) ((pending_ids s.items).zip results) t0
          ++ [(process_batch s results t0 t1).1]) := by
    simp only [process_batch_trace]
    rw [if_neg hemp]
  obtain ⟨a1, a2, a3⟩ := run_items_invariant ((pending_ids s.items).zip results)
    (batch_started s t0) t0 htot hctr
  have hmapfst : (((pending_ids s.items).zip results)).map Prod.fst = pending_ids s.items :=
    List.map_fst_zip _ _ (by omega)
  have hterm := run_items_terminal ((pending_ids s.items).zip results) (batch_started s t0) t0
    hni (fun it hit hstat => by
      rw [hmapfst]
      exact List.mem_map.mpr ⟨it, List.mem_filter.mpr ⟨hit, by simp [hstat]⟩, rfl⟩)
  obtain ⟨f1, f2⟩ := run_items_final_counters ((pending_ids s.items).zip results)
    (batch_started s t0) t0 hzne
  refine ⟨?_, ?_, ?_⟩
  · intro s' hs'
    rw [hT] at hs'
    rcases List.mem_cons.mp hs' with rfl | hs'
    · exact hctr
    · rcases List.mem_append.mp hs' with hmem | hmem
      · exact a3 s' hmem
      · have hs'' := List.mem_singleton.mp hmem
        subst hs''
        have ec : (process_batch s results t0 t1).1.batch.completed_keywords
            = (run_items (batch_started s t0)
                ((pending_ids s.items).zip results) t0).1.batch.completed_keywords := by
          rw [hP]; rfl
        have ef : (process_batch s results t0 t1).1.batch.failed_keywords
            = (run_items (batch_started s t0)
                ((pending_ids s.items).zip results) t0).1.batch.failed_keywords := by
          rw [hP]; rfl
        have et : (process_batch s results t0 t1).1.batch.total_keywords
            = (run_items (batch_started s t0)
                ((pending_ids s.items).zip results) t0).1.batch.total_keywords := by
          rw [hP]; rfl
        rw [ec, ef, et]
        exact a2
  · have e_items : (process_batch s results t0 t1).1.items
        = (run_items (batch_started s t0) ((pending_ids s.items).zip results) t0).1.items := by
      rw [hP]; rfl
    rw [e_items]
    exact pending_ids_eq_nil hterm
  · have ec : (process_batch s results t0 t1).1.batch.completed_keywords
        = (run_items (batch_started s t0)
            ((pending_ids s.items).zip results) t0).1.batch.completed_keywords := by
      rw [hP]; rfl
    have ef : (process_batch s results t0 t1).1.batch.failed_keywords
        = (run_items (batch_started s t0)
            ((pending_ids s.items).zip results) t0).1.batch.failed_keywords := by
      rw [hP]; rfl
    have et : (process_batch s results t0 t1).1.batch.total_keywords
        = (run_items (batch_started s t0)
            ((pending_ids s.items).zip results) t0).1.batch.total_keywords := by
      rw [hP]; rfl
    rw [ec, ef, et, f1, f2, a1]
    exact counts_terminal _ hterm

/-- Witness for C3: a fresh one-item batch processed with one successful
tool outcome. -/
theorem c3_witness :
    (∀ s' ∈ process_batch_trace sample_fresh_db [ToolResult.exited 0 "" (some "s9")] 0 5,
      s'.batch.completed_keywords + s'.batch.failed_keywords ≤ s'.batch.total_keywords) ∧
    pending_ids (process_batch sample_fresh_db
        [ToolResult.exited 0 "" (some "s9")] 0 5).1.items = [] ∧
    (process_batch sample_fresh_db [ToolResult.exited 0 "" (some "s9")] 0 5).1.batch.completed_keywords
        + (process_batch sample_fresh_db
            [ToolResult.exited 0 "" (some "s9")] 0 5).1.batch.failed_keywords
      = (process_batch sample_fresh_db
          [ToolResult.exited 0 "" (some "s9")] 0 5).1.batch.total_keywords :=
  c3_counter_invariant sample_fresh_db [ToolResult.exited 0 "" (some "s9")] 0 5
    (by decide) (by decide) (by decide) (by decide) (by decide)

end AppstoreGold
